import Mathlib

set_option maxHeartbeats 1000000

/-!
Verification of the cdk-ecr-deployment image deployment handler.

The handler (src/lambda/main.go) copies a container image from a source
reference to a destination reference. It is invoked either as a
CloudFormation custom resource (provisioning flow, cfnHandler) or as a
CodePipeline job (pipeline flow, codePipelineHandler); the INVOKER
environment variable, read in main, selects the registered handler.
Before copying it resolves registry credentials for each side from a
credential descriptor (parseCreds), parses the two image references into
transport-qualified references, builds a per-side system context, and
invokes the external copy engine.

This file embeds that handler shallowly: the secret store, the external
copy engine and the JSON decoder are abstract parameters gathered in an
environment record, and side effects (secret-store reads, engine calls,
job-control API calls, log lines) are made explicit in the returned
values so that theorems can count them.
-/

deriving instance DecidableEq for Except

/-- Credential descriptor as delivered to the lambda. The wire shape is
`LambdaCredentials` of src/src (types.ts): optional `plainText`,
`secretArn`, `usernameKey`, `passwordKey`. Field names follow the Go
struct consumed by `parseCreds` in src/lambda/main.go; absent fields are
the empty string, matching Go string zero values. -/
structure Creds where
  PlainText : String := ""
  SecretArn : String := ""
  UsernameKey : String := ""
  PasswordKey : String := ""
deriving DecidableEq

/-- The deployment request decoded from the invocation payload
(src/lambda/main.go `UserParameters`): source and destination image
reference strings plus one credential descriptor per side. Absent fields
keep Go zero values. -/
structure UserParameters where
  SrcImage : String := ""
  SrcCreds : Creds := {}
  DestImage : String := ""
  DestCreds : Creds := {}
deriving DecidableEq

/-- A value held by the secret store: `raw` is the retrieved secret
string; `kv` is its reading as a key-value map when the value is one
(`none` when the value is not a key-value map). -/
structure SecretValue where
  raw : String
  kv : Option (List (String × String)) := none
deriving DecidableEq

/-- The secret store, abstract: an assignment of secret values to
identifiers (ARN or name), `none` when the secret does not exist or is
inaccessible. -/
structure SecretStore where
  lookup : String → Option SecretValue

/-- One read of the secret store. The second component counts the reads
performed (always one per fetch); resolution functions propagate this
count so that theorems can state how many store reads an invocation
performs. -/
def SecretStore.fetch (store : SecretStore) (arn : String) : Option SecretValue × Nat :=
  (store.lookup arn, 1)

/-- The error kinds the handler can produce, named as in the spec:
resolution errors (secret missing or malformed), reference errors
(unsupported transport scheme), and a wrapped copy-engine failure. -/
inductive CopyErr
  | SecretNotFound (arn : String)
  | MalformedSecret (arn : String)
  | UnsupportedScheme (ref : String)
  | CopyFailed (detail : String)
deriving DecidableEq

/-- Rendering of an error as Go `err.Error()` text. The texts of the
first three kinds are modelled (their Go producers live outside
src/lambda/main.go); the `CopyFailed` rendering is literal from
src/lambda/main.go line 175: the fixed prefix `copy image failed: `
followed by the engine's own error text. -/
def CopyErr.text : CopyErr → String
  | .SecretNotFound arn => "secret not found: " ++ arn
  | .MalformedSecret arn => "malformed secret: " ++ arn
  | .UnsupportedScheme ref => "unsupported image reference: " ++ ref
  | .CopyFailed detail => "copy image failed: " ++ detail

/-- First-match lookup of a key in a key-value map. -/
def lookupKV (m : List (String × String)) (k : String) : Option String :=
  match m with
  | [] => none
  | (k2, v) :: rest => if k2 = k then some v else lookupKV rest k

/-- Extraction of `"<username-value>:<password-value>"` from a retrieved
key-value secret: fails with `MalformedSecret` when the value is not a
key-value map or lacks either named key. -/
def splitSecretValue (arn : String) (v : SecretValue) (uk pk : String) :
    Except CopyErr String :=
  match v.kv with
  | none => .error (.MalformedSecret arn)
  | some m =>
    match lookupKV m uk, lookupKV m pk with
    | some u, some p => .ok (u ++ ":" ++ p)
    | _, _ => .error (.MalformedSecret arn)

/-- Modelled from the spec: `SecretsManager.GetSecret`, the secret-fetch
unit of the lambda called by `parseCreds` (src/lambda/main.go line 215)
but whose Go source file is not under src/. Per spec section 4.1 it
fetches the secret once, fails with `SecretNotFound` when the secret
does not exist or is inaccessible, and — when both key names are present
in the descriptor — extracts the two named keys into
`"<username-value>:<password-value>"`, failing with `MalformedSecret`
when the value is not a key-value map or lacks either named key;
otherwise it returns the raw retrieved value unmodified. The second
component counts secret-store reads. -/
def GetSecret (store : SecretStore) (creds : Creds) : Except CopyErr String × Nat :=
  match store.fetch creds.SecretArn with
  | (none, n) => (.error (.SecretNotFound creds.SecretArn), n)
  | (some v, n) =>
    if creds.UsernameKey ≠ "" ∧ creds.PasswordKey ≠ "" then
      (splitSecretValue creds.SecretArn v creds.UsernameKey creds.PasswordKey, n)
    else
      (.ok v.raw, n)

/-- Embeds `parseCreds` (src/lambda/main.go lines 213-223): if a secret
identifier is present, resolve through the secret store; else if a
plaintext value is present, return it unchanged; else return the empty
credential. The second component counts secret-store reads performed. -/
def parseCreds (store : SecretStore) (creds : Creds) : Except CopyErr String × Nat :=
  if creds.SecretArn ≠ "" then
    GetSecret store creds
  else if creds.PlainText ≠ "" then
    (.ok creds.PlainText, 0)
  else
    (.ok "", 0)

/-- Sample secret store used to instantiate theorems on concrete inputs:
`dockerhub` holds a raw token secret, `kv-secret` a key-value secret with
keys `u` and `p` (the spec's worked scenarios). -/
def kvStore : SecretStore where
  lookup := fun arn =>
    if arn = "dockerhub" then some { raw := "token123" }
    else if arn = "kv-secret" then
      some { raw := "rawkv", kv := some [("u", "alice"), ("p", "s3cr3t")] }
    else none

/-- Helper: fetching a secret performs exactly one secret-store read,
whatever the outcome. -/
theorem GetSecret_fetches_once (store : SecretStore) (c : Creds) :
    (GetSecret store c).2 = 1 := by
  unfold GetSecret SecretStore.fetch
  cases store.lookup c.SecretArn with
  | none => rfl
  | some v => by_cases h : c.UsernameKey ≠ "" ∧ c.PasswordKey ≠ "" <;> simp [h]

/-- Claim C1: credential resolution follows a fixed precedence. With a
secret identifier present the descriptor resolves via the secret store
(one read), regardless of any plaintext value also present, taking the
split path when both key names are present and the whole-secret path
otherwise; with no secret identifier but a plaintext value, resolution
returns the plaintext unchanged with zero secret-store reads; with
neither, it returns the empty credential with no error and zero reads. -/
theorem parseCreds_precedence (store : SecretStore) (c : Creds) :
    (c.SecretArn ≠ "" → parseCreds store c = GetSecret store c ∧ (parseCreds store c).2 = 1) ∧
    (c.SecretArn ≠ "" → ∀ p, parseCreds store { c with PlainText := p } = parseCreds store c) ∧
    (c.SecretArn ≠ "" → c.UsernameKey ≠ "" → c.PasswordKey ≠ "" →
      ∀ v, store.lookup c.SecretArn = some v →
        (parseCreds store c).1 = splitSecretValue c.SecretArn v c.UsernameKey c.PasswordKey) ∧
    (c.SecretArn ≠ "" → (c.UsernameKey = "" ∨ c.PasswordKey = "") →
      ∀ v, store.lookup c.SecretArn = some v →
        (parseCreds store c).1 = .ok v.raw) ∧
    (c.SecretArn = "" → c.PlainText ≠ "" → parseCreds store c = (.ok c.PlainText, 0)) ∧
    (c.SecretArn = "" → c.PlainText = "" → parseCreds store c = (.ok "", 0)) := by
  refine ⟨?_, ?_, ?_, ?_, ?_, ?_⟩
  · intro h
    have he : parseCreds store c = GetSecret store c := by simp [parseCreds, h]
    exact ⟨he, by rw [he]; exact GetSecret_fetches_once store c⟩
  · intro h p
    simp [parseCreds, h, GetSecret, SecretStore.fetch]
  · intro h hu hp v hv
    simp [parseCreds, h, GetSecret, SecretStore.fetch, hv, hu, hp]
  · intro h hk v hv
    have : ¬(c.UsernameKey ≠ "" ∧ c.PasswordKey ≠ "") := by
      rcases hk with hk | hk <;> simp [hk]
    simp [parseCreds, h, GetSecret, SecretStore.fetch, hv, this]
  · intro h hp
    simp [parseCreds, h, hp]
  · intro h hp
    simp [parseCreds, h, hp]

/-- Concrete instantiation of `parseCreds_precedence`: a descriptor with
a secret identifier resolves via the secret store even when a plaintext
value is also present; a plaintext-only descriptor resolves to the
plaintext with zero reads; an empty descriptor resolves to the empty
credential with zero reads. -/
theorem parseCreds_precedence_witness :
    parseCreds kvStore { SecretArn := "dockerhub", PlainText := "zzz" } =
      GetSecret kvStore { SecretArn := "dockerhub", PlainText := "zzz" } ∧
    parseCreds kvStore { PlainText := "u:p" } = (.ok "u:p", 0) ∧
    parseCreds kvStore {} = (.ok "", 0) :=
  ⟨((parseCreds_precedence kvStore { SecretArn := "dockerhub", PlainText := "zzz" }).1
      (by decide)).1,
   (parseCreds_precedence kvStore { PlainText := "u:p" }).2.2.2.2.1 (by decide) (by decide),
   (parseCreds_precedence kvStore {}).2.2.2.2.2 (by decide) (by decide)⟩

/-- Claim C2: a descriptor with a secret identifier and both key names
performs exactly one secret-store read; when the retrieved value is a
key-value map holding both named keys the resolved credential is
`"<username-value>:<password-value>"`; when the value is not a key-value
map, or lacks either named key, resolution fails with `MalformedSecret`;
when the secret does not exist the failure is `SecretNotFound`. -/
theorem parseCreds_split_secret (store : SecretStore) (c : Creds)
    (ha : c.SecretArn ≠ "") (hu : c.UsernameKey ≠ "") (hp : c.PasswordKey ≠ "") :
    (parseCreds store c).2 = 1 ∧
    (∀ v m u p, store.lookup c.SecretArn = some v → v.kv = some m →
      lookupKV m c.UsernameKey = some u → lookupKV m c.PasswordKey = some p →
      (parseCreds store c).1 = .ok (u ++ ":" ++ p)) ∧
    (∀ v, store.lookup c.SecretArn = some v → v.kv = none →
      (parseCreds store c).1 = .error (.MalformedSecret c.SecretArn)) ∧
    (∀ v m, store.lookup c.SecretArn = some v → v.kv = some m →
      (lookupKV m c.UsernameKey = none ∨ lookupKV m c.PasswordKey = none) →
      (parseCreds store c).1 = .error (.MalformedSecret c.SecretArn)) ∧
    (store.lookup c.SecretArn = none →
      (parseCreds store c).1 = .error (.SecretNotFound c.SecretArn)) := by
  refine ⟨?_, ?_, ?_, ?_, ?_⟩
  · have he : parseCreds store c = GetSecret store c := by simp [parseCreds, ha]
    rw [he]
    exact GetSecret_fetches_once store c
  · intro v m u p hv hm hlu hlp
    simp [parseCreds, ha, GetSecret, SecretStore.fetch, hv, hu, hp,
      splitSecretValue, hm, hlu, hlp]
  · intro v hv hm
    simp [parseCreds, ha, GetSecret, SecretStore.fetch, hv, hu, hp,
      splitSecretValue, hm]
  · intro v m hv hm hmiss
    have hsplit : splitSecretValue c.SecretArn v c.UsernameKey c.PasswordKey =
        .error (.MalformedSecret c.SecretArn) := by
      rcases hlu : lookupKV m c.UsernameKey with _ | u <;>
        rcases hlp : lookupKV m c.PasswordKey with _ | p <;>
        simp_all [splitSecretValue, hm]
    simp [parseCreds, ha, GetSecret, SecretStore.fetch, hv, hu, hp, hsplit]
  · intro hv
    simp [parseCreds, ha, GetSecret, SecretStore.fetch, hv]

/-- Concrete instantiation of `parseCreds_split_secret`: the key-value
secret `kv-secret` with keys `u`, `p` resolves to `alice:s3cr3t` in one
store read, and the raw (non key-value) secret `dockerhub` under the
split path fails with `MalformedSecret`. -/
theorem parseCreds_split_secret_witness :
    (parseCreds kvStore { SecretArn := "kv-secret", UsernameKey := "u", PasswordKey := "p" }).2 = 1 ∧
    (parseCreds kvStore { SecretArn := "kv-secret", UsernameKey := "u", PasswordKey := "p" }).1 =
      .ok "alice:s3cr3t" ∧
    (parseCreds kvStore { SecretArn := "dockerhub", UsernameKey := "u", PasswordKey := "p" }).1 =
      .error (.MalformedSecret "dockerhub") := by
  refine ⟨(parseCreds_split_secret kvStore
      { SecretArn := "kv-secret", UsernameKey := "u", PasswordKey := "p" }
      (by decide) (by decide) (by decide)).1, ?_, ?_⟩
  · have h := (parseCreds_split_secret kvStore
      { SecretArn := "kv-secret", UsernameKey := "u", PasswordKey := "p" }
      (by decide) (by decide) (by decide)).2.1
      { raw := "rawkv", kv := some [("u", "alice"), ("p", "s3cr3t")] }
      [("u", "alice"), ("p", "s3cr3t")] "alice" "s3cr3t"
      (by decide) (by decide) (by decide) (by decide)
    exact h
  · have h := (parseCreds_split_secret kvStore
      { SecretArn := "dockerhub", UsernameKey := "u", PasswordKey := "p" }
      (by decide) (by decide) (by decide)).2.2.1
      { raw := "token123" } (by decide) (by decide)
    exact h

/-- A transport-qualified image reference: the transport name before the
first colon and the transport-specific remainder. -/
structure ImageRef where
  transport : String
  name : String
deriving DecidableEq

/-- The transport names registered with the copy engine: the standard
transports of the external image library plus the `s3` transport plugin
this repository installs (src/lambda/main.go line 26). -/
def knownTransports : List String :=
  ["dir", "docker", "docker-archive", "docker-daemon", "oci", "oci-archive",
   "ostree", "tarball", "containers-storage", "s3"]

/-- Splits a character list at its first colon: the characters before
it and the characters after it, or `none` when there is no colon. -/
def breakAtColon : List Char → Option (List Char × List Char)
  | [] => none
  | c :: rest =>
    if c = ':' then some ([], rest)
    else
      match breakAtColon rest with
      | none => none
      | some (a, b) => some (c :: a, b)

/-- Modelled from the external image library registry used at
src/lambda/main.go lines 139-146 (`alltransports.ParseImageName`): an
image reference is `transport:rest`, split at the first colon; parsing
fails when there is no colon or when the transport name is not
registered. -/
def ParseImageName (s : String) : Except CopyErr ImageRef :=
  match breakAtColon s.toList with
  | none => .error (.UnsupportedScheme s)
  | some (t, rest) =>
    if String.mk t ∈ knownTransports then
      .ok { transport := String.mk t, name := String.mk rest }
    else
      .error (.UnsupportedScheme s)

/-- The per-side bundle handed to the copy engine: the image reference
string and the resolved credential attached to its authentication
slot. -/
structure SystemContext where
  image : String
  creds : String
deriving DecidableEq

/-- Modelled from the spec: the Image Context Builder
(`NewImageOpts`/`SetCreds`/`NewSystemContext`, called at
src/lambda/main.go lines 148-159 but defined in a lambda helper unit not
under src/). Per spec section 4.2 it attaches the resolved credential to
the per-side system context; the error arm mirrors the checked error
return of the source. -/
def NewSystemContext (image : String) (creds : String) : Except CopyErr SystemContext :=
  .ok { image := image, creds := creds }

/-- The observable side effects of one copy attempt: how many
secret-store reads were performed and how many times the external copy
engine was invoked. -/
structure HTrace where
  secretReads : Nat := 0
  engineCalls : Nat := 0
deriving DecidableEq

/-- The abstract environment of one invocation: the secret store, the
external copy engine (spec section 4.3 treats it as an opaque capability
that either succeeds or reports an error text; its first two arguments
are destination and source, matching `copy.Image`), the JSON decoder for
the pipeline user-parameters string (`none` models a decode failure),
and the delivery outcomes of the two job-control reporting calls
(`some msg` models a delivery failure with error text `msg`). -/
structure Env where
  store : SecretStore
  copyImage : ImageRef → ImageRef → SystemContext → SystemContext → Except String Unit
  decodeUserParameters : String → Option UserParameters
  putJobSuccessErr : Option String := none
  putJobFailureErr : Option String := none

/-- Embeds `handleImages` (src/lambda/main.go lines 126-179): resolve
both credential descriptors, parse both image references, build both
system contexts, then invoke the external copy engine once, wrapping an
engine error with the fixed prefix `copy image failed: `. The trace
records secret-store reads and engine invocations. -/
def handleImages (env : Env) (up : UserParameters) : Except CopyErr Unit × HTrace :=
  match parseCreds env.store up.SrcCreds with
  | (.error e, n1) => (.error e, { secretReads := n1 })
  | (.ok srcCreds, n1) =>
    match parseCreds env.store up.DestCreds with
    | (.error e, n2) => (.error e, { secretReads := n1 + n2 })
    | (.ok destCreds, n2) =>
      match ParseImageName up.SrcImage with
      | .error e => (.error e, { secretReads := n1 + n2 })
      | .ok srcRef =>
        match ParseImageName up.DestImage with
        | .error e => (.error e, { secretReads := n1 + n2 })
        | .ok destRef =>
          match NewSystemContext up.SrcImage srcCreds with
          | .error e => (.error e, { secretReads := n1 + n2 })
          | .ok srcCtx =>
            match NewSystemContext up.DestImage destCreds with
            | .error e => (.error e, { secretReads := n1 + n2 })
            | .ok destCtx =>
              match env.copyImage destRef srcRef destCtx srcCtx with
              | .error msg =>
                (.error (.CopyFailed msg), { secretReads := n1 + n2, engineCalls := 1 })
              | .ok _ =>
                (.ok (), { secretReads := n1 + n2, engineCalls := 1 })

/-- The spec's worked copy scenario: plaintext credential on the source,
anonymous destination. -/
def upOk : UserParameters :=
  { SrcImage := "docker://repo/app:v1", SrcCreds := { PlainText := "u:p" },
    DestImage := "docker://other/app:v1", DestCreds := {} }

/-- Environment whose copy engine always succeeds and whose decoder
yields the worked scenario. -/
def okEnv : Env :=
  { store := kvStore, copyImage := fun _ _ _ _ => .ok (),
    decodeUserParameters := fun _ => some upOk }

/-- Environment whose copy engine always fails with a fixed engine error
text. -/
def failEnv : Env :=
  { store := kvStore, copyImage := fun _ _ _ _ => .error "network timeout",
    decodeUserParameters := fun _ => some upOk }

/-- Helper: the copy engine is invoked at most once per `handleImages`
run — there is no internal retry. -/
theorem handleImages_engine_at_most_once (env : Env) (up : UserParameters) :
    (handleImages env up).2.engineCalls ≤ 1 := by
  unfold handleImages
  split <;> try simp
  split <;> try simp
  split <;> try simp
  split <;> try simp
  split <;> try simp
  split <;> try simp
  split <;> simp

/-- Claim C6: whenever the external copy engine returns an error, the
orchestrator returns a failure whose message is the engine's error text
prefixed with exactly `copy image failed: `, and the copy is not
retried (the engine is invoked at most once, and exactly once in this
run). -/
theorem copy_engine_error_wrapped (env : Env) (up : UserParameters)
    (sCreds dCreds : String) (sRef dRef : ImageRef) (msg : String)
    (h1 : (parseCreds env.store up.SrcCreds).1 = .ok sCreds)
    (h2 : (parseCreds env.store up.DestCreds).1 = .ok dCreds)
    (h3 : ParseImageName up.SrcImage = .ok sRef)
    (h4 : ParseImageName up.DestImage = .ok dRef)
    (h5 : env.copyImage dRef sRef
      { image := up.DestImage, creds := dCreds }
      { image := up.SrcImage, creds := sCreds } = .error msg) :
    (handleImages env up).1 = .error (.CopyFailed msg) ∧
    CopyErr.text (.CopyFailed msg) = "copy image failed: " ++ msg ∧
    (handleImages env up).2.engineCalls = 1 ∧
    (handleImages env up).2.engineCalls ≤ 1 := by
  rcases hp1 : parseCreds env.store up.SrcCreds with ⟨r1, n1⟩
  rcases hp2 : parseCreds env.store up.DestCreds with ⟨r2, n2⟩
  rw [hp1] at h1; rw [hp2] at h2
  simp only at h1 h2
  subst h1 h2
  refine ⟨?_, rfl, ?_, ?_⟩ <;>
    simp [handleImages, hp1, hp2, h3, h4, NewSystemContext, h5]

/-- Concrete instantiation of `copy_engine_error_wrapped`: with an
engine that fails with `network timeout`, the worked scenario returns
the wrapped error `copy image failed: network timeout` after exactly one
engine call. -/
theorem copy_engine_error_wrapped_witness :
    (handleImages failEnv upOk).1 = .error (.CopyFailed "network timeout") ∧
    CopyErr.text (.CopyFailed "network timeout") = "copy image failed: network timeout" ∧
    (handleImages failEnv upOk).2.engineCalls = 1 ∧
    (handleImages failEnv upOk).2.engineCalls ≤ 1 :=
  copy_engine_error_wrapped failEnv upOk "u:p" "" ⟨"docker", "//repo/app:v1"⟩
    ⟨"docker", "//other/app:v1"⟩ "network timeout"
    (by decide) (by decide) (by decide) (by decide) (by decide)

/-- Claim C7: an invocation whose source or destination image reference
has an unrecognized transport scheme never reaches the copy engine, and
— when credential resolution succeeds — fails with exactly that
reference error; in particular `ftp://host/path` is rejected as an
unsupported scheme. -/
theorem unsupported_scheme_no_engine :
    (∀ (env : Env) (up : UserParameters) (e : CopyErr),
      (ParseImageName up.SrcImage = .error e ∨ ParseImageName up.DestImage = .error e) →
      (handleImages env up).2.engineCalls = 0) ∧
    (∀ (env : Env) (up : UserParameters) (e : CopyErr) (sCreds dCreds : String),
      (parseCreds env.store up.SrcCreds).1 = .ok sCreds →
      (parseCreds env.store up.DestCreds).1 = .ok dCreds →
      ParseImageName up.SrcImage = .error e →
      (handleImages env up).1 = .error e) ∧
    (∀ (env : Env) (up : UserParameters) (e : CopyErr) (sCreds dCreds : String)
      (sRef : ImageRef),
      (parseCreds env.store up.SrcCreds).1 = .ok sCreds →
      (parseCreds env.store up.DestCreds).1 = .ok dCreds →
      ParseImageName up.SrcImage = .ok sRef →
      ParseImageName up.DestImage = .error e →
      (handleImages env up).1 = .error e) ∧
    ParseImageName "ftp://host/path" = .error (.UnsupportedScheme "ftp://host/path") := by
  refine ⟨?_, ?_, ?_, by decide⟩
  · intro env up e he
    rcases hp1 : parseCreds env.store up.SrcCreds with ⟨r1, n1⟩
    rcases r1 with e1 | s1
    · simp [handleImages, hp1]
    rcases hp2 : parseCreds env.store up.DestCreds with ⟨r2, n2⟩
    rcases r2 with e2 | s2
    · simp [handleImages, hp1, hp2]
    rcases he with he | he
    · simp [handleImages, hp1, hp2, he]
    · rcases hsrc : ParseImageName up.SrcImage with e1 | sRef
      · simp [handleImages, hp1, hp2, hsrc]
      · simp [handleImages, hp1, hp2, hsrc, he]
  · intro env up e sCreds dCreds h1 h2 he
    rcases hp1 : parseCreds env.store up.SrcCreds with ⟨r1, n1⟩
    rcases hp2 : parseCreds env.store up.DestCreds with ⟨r2, n2⟩
    rw [hp1] at h1; rw [hp2] at h2
    simp only at h1 h2
    subst h1 h2
    simp [handleImages, hp1, hp2, he]
  · intro env up e sCreds dCreds sRef h1 h2 hs he
    rcases hp1 : parseCreds env.store up.SrcCreds with ⟨r1, n1⟩
    rcases hp2 : parseCreds env.store up.DestCreds with ⟨r2, n2⟩
    rw [hp1] at h1; rw [hp2] at h2
    simp only at h1 h2
    subst h1 h2
    simp [handleImages, hp1, hp2, hs, he]

/-- Concrete instantiation of `unsupported_scheme_no_engine`: with the
source reference `ftp://host/path` the handler fails with the
unsupported-scheme error and performs zero engine calls, even though the
engine itself would have succeeded. -/
theorem unsupported_scheme_no_engine_witness :
    (handleImages okEnv { upOk with SrcImage := "ftp://host/path" }).2.engineCalls = 0 ∧
    (handleImages okEnv { upOk with SrcImage := "ftp://host/path" }).1 =
      .error (.UnsupportedScheme "ftp://host/path") :=
  ⟨unsupported_scheme_no_engine.1 okEnv { upOk with SrcImage := "ftp://host/path" }
      (.UnsupportedScheme "ftp://host/path") (Or.inl (by decide)),
   unsupported_scheme_no_engine.2.1 okEnv { upOk with SrcImage := "ftp://host/path" }
      (.UnsupportedScheme "ftp://host/path") "u:p" "" (by decide) (by decide) (by decide)⟩

/-- The provisioning-lifecycle request types (`cfn.RequestType`). -/
inductive RequestType
  | Create
  | Update
  | Delete
deriving DecidableEq

/-- A provisioning-lifecycle event: the request type, the supplied
physical resource identifier, and the resource properties decoded into
the typed `UserParameters` structure; `none` models a property map that
fails to decode (src/lambda/main.go lines 74-75 discard the
marshal/unmarshal errors, leaving the zero-valued structure). -/
structure CfnEvent where
  RequestType : RequestType
  PhysicalResourceID : String
  ResourceProperties : Option UserParameters
deriving DecidableEq

/-- Embeds `cfnHandler` (src/lambda/main.go lines 61-83): delete events
return the supplied physical resource identifier immediately with no
error and no work; create and update events decode the properties
(decode failures silently yield the zero-valued structure) and run
`handleImages`, propagating its error. The result pairs the returned
physical resource identifier and error with the side-effect trace. -/
def cfnHandler (env : Env) (event : CfnEvent) :
    (String × Option CopyErr) × HTrace :=
  match event.RequestType with
  | .Delete => ((event.PhysicalResourceID, none), {})
  | _ =>
    match handleImages env (event.ResourceProperties.getD {}) with
    | (.ok _, t) => ((event.PhysicalResourceID, none), t)
    | (.error e, t) => ((event.PhysicalResourceID, some e), t)

/-- Claim C3: a delete-type provisioning event performs no credential
resolution and no copy, returns the supplied physical resource
identifier unchanged, and succeeds; the outcome is the same in every
environment, so neither the resolver nor the copy orchestrator is
consulted. -/
theorem cfnHandler_delete_noop (env : Env) (event : CfnEvent)
    (h : event.RequestType = .Delete) :
    cfnHandler env event =
      ((event.PhysicalResourceID, none), { secretReads := 0, engineCalls := 0 }) ∧
    (∀ env2 : Env, cfnHandler env2 event = cfnHandler env event) := by
  constructor
  · simp [cfnHandler, h]
  · intro env2
    simp [cfnHandler, h]

/-- Concrete instantiation of `cfnHandler_delete_noop`: a delete event
with identifier `pri-1` succeeds unchanged with an empty trace, in both
the always-succeeding and the always-failing engine environments. -/
theorem cfnHandler_delete_noop_witness :
    cfnHandler okEnv
      { RequestType := .Delete, PhysicalResourceID := "pri-1",
        ResourceProperties := some upOk } =
      (("pri-1", none), { secretReads := 0, engineCalls := 0 }) ∧
    cfnHandler failEnv
      { RequestType := .Delete, PhysicalResourceID := "pri-1",
        ResourceProperties := some upOk } =
      cfnHandler okEnv
      { RequestType := .Delete, PhysicalResourceID := "pri-1",
        ResourceProperties := some upOk } :=
  ⟨(cfnHandler_delete_noop okEnv
      { RequestType := .Delete, PhysicalResourceID := "pri-1",
        ResourceProperties := some upOk } rfl).1,
   (cfnHandler_delete_noop okEnv
      { RequestType := .Delete, PhysicalResourceID := "pri-1",
        ResourceProperties := some upOk } rfl).2 failEnv⟩

/-- A pipeline-job event: the job identifier and the user-parameters
JSON string embedded in the action configuration. -/
structure PipelineJobEvent where
  id : String
  userParametersJson : String
deriving DecidableEq

/-- The observable outcome of one pipeline-job invocation: the
job-success reporting calls made (job id and summary), the job-failure
reporting calls made (job id and failure message), the log lines
emitted, the error returned to the lambda runtime (the Go handler
returns no value, so this is always `none` — recorded explicitly so the
theorem stating it is about the embedded control flow), and the
side-effect trace of the copy attempt. -/
structure PipelineRun where
  successCalls : List (String × String)
  failureCalls : List (String × String)
  logs : List String
  returnError : Option String
  trace : HTrace
deriving DecidableEq

/-- Embeds the body of `codePipelineHandler` after parameter decoding
(src/lambda/main.go lines 97-124): on a copy error, log it, report job
failure once with the error text as failure detail (logging a delivery
failure); on success, report job success once with the summary
`Copied image <SrcImage> to <DestImage>` (logging a delivery failure).
Either way the handler returns no error to its runtime. -/
def runPipelineJob (env : Env) (jobId : String) (up : UserParameters) : PipelineRun :=
  match handleImages env up with
  | (.error e, t) =>
    { successCalls := [],
      failureCalls := [(jobId, e.text)],
      logs := ("copy image failed: " ++ e.text) ::
        (match env.putJobFailureErr with
         | some _ => ["putting job failure results failed: " ++ e.text]
         | none => []),
      returnError := none,
      trace := t }
  | (.ok _, t) =>
    { successCalls := [(jobId, "Copied image " ++ up.SrcImage ++ " to " ++ up.DestImage)],
      failureCalls := [],
      logs :=
        (match env.putJobSuccessErr with
         | some m => ["putting job success results failed: " ++ m]
         | none => []),
      returnError := none,
      trace := t }

/-- Embeds `codePipelineHandler` (src/lambda/main.go lines 85-124):
decode the embedded user-parameters JSON string (the unmarshal error is
discarded, so a decode failure leaves the zero-valued structure) and run
the job body. -/
def codePipelineHandler (env : Env) (event : PipelineJobEvent) : PipelineRun :=
  runPipelineJob env event.id
    ((env.decodeUserParameters event.userParametersJson).getD {})

/-- Claim C4: a pipeline-job invocation whose copy succeeds reports job
success exactly once, with the summary `Copied image <SrcImage> to
<DestImage>` naming both image references, and never reports job
failure; `codePipelineHandler` is exactly this job body applied to the
decoded parameters. -/
theorem pipeline_success_report (env : Env) (jobId : String) (up : UserParameters)
    (h : (handleImages env up).1 = .ok ()) :
    (runPipelineJob env jobId up).successCalls =
      [(jobId, "Copied image " ++ up.SrcImage ++ " to " ++ up.DestImage)] ∧
    (runPipelineJob env jobId up).failureCalls = [] ∧
    (∀ event : PipelineJobEvent, codePipelineHandler env event =
      runPipelineJob env event.id
        ((env.decodeUserParameters event.userParametersJson).getD {})) := by
  rcases hr : handleImages env up with ⟨r, t⟩
  rw [hr] at h
  simp only at h
  subst h
  exact ⟨by simp [runPipelineJob, hr], by simp [runPipelineJob, hr], fun _ => rfl⟩

/-- Concrete instantiation of `pipeline_success_report`: the worked
scenario reports success once with summary
`Copied image docker://repo/app:v1 to docker://other/app:v1` and no
failure. -/
theorem pipeline_success_report_witness :
    (runPipelineJob okEnv "job-1" upOk).successCalls =
      [("job-1", "Copied image docker://repo/app:v1 to docker://other/app:v1")] ∧
    (runPipelineJob okEnv "job-1" upOk).failureCalls = [] := by
  have h := pipeline_success_report okEnv "job-1" upOk (by decide)
  exact ⟨h.1.trans (by decide), h.2.1⟩

/-- Claim C5: a pipeline-job invocation whose copy (or its credential or
reference preparation) fails reports job failure exactly once, with the
error's text as the failure detail, and never reports job success. -/
theorem pipeline_failure_report (env : Env) (jobId : String) (up : UserParameters)
    (e : CopyErr) (h : (handleImages env up).1 = .error e) :
    (runPipelineJob env jobId up).failureCalls = [(jobId, e.text)] ∧
    (runPipelineJob env jobId up).successCalls = [] ∧
    (∀ event : PipelineJobEvent, codePipelineHandler env event =
      runPipelineJob env event.id
        ((env.decodeUserParameters event.userParametersJson).getD {})) := by
  rcases hr : handleImages env up with ⟨r, t⟩
  rw [hr] at h
  simp only at h
  subst h
  exact ⟨by simp [runPipelineJob, hr], by simp [runPipelineJob, hr], fun _ => rfl⟩

/-- Concrete instantiation of `pipeline_failure_report`: with the
failing engine, the worked scenario reports failure once with detail
`copy image failed: network timeout` and no success. -/
theorem pipeline_failure_report_witness :
    (runPipelineJob failEnv "job-2" upOk).failureCalls =
      [("job-2", "copy image failed: network timeout")] ∧
    (runPipelineJob failEnv "job-2" upOk).successCalls = [] := by
  have h := pipeline_failure_report failEnv "job-2" upOk
    (.CopyFailed "network timeout") (by decide)
  exact ⟨h.1.trans (by decide), h.2.1⟩

/-- Claim C10: every pipeline-job invocation returns normally to its
runtime: whatever the environment — decode failures, resolution or
reference or copy failures, and failed notification deliveries included
— the handler returns no invocation error and reports the outcome
through exactly one job-control call. -/
theorem pipeline_handler_total (env : Env) (event : PipelineJobEvent) :
    (codePipelineHandler env event).returnError = none ∧
    (codePipelineHandler env event).successCalls.length +
      (codePipelineHandler env event).failureCalls.length = 1 := by
  unfold codePipelineHandler runPipelineJob
  rcases handleImages env ((env.decodeUserParameters event.userParametersJson).getD {})
    with ⟨r, t⟩
  rcases r with e | u <;> simp

/-- The process environment: the environment variables visible to the
process, as `os.Getenv` sees them (the empty string when unset). -/
structure ProcessEnv where
  getEnv : String → String

/-- The two handler registrations `main` can select
(src/lambda/main.go lines 40-46). -/
inductive HandlerMode
  | codePipeline
  | customResource
deriving DecidableEq

/-- An inbound invocation, in either control-plane envelope. -/
inductive InvocationEvent
  | cfn (e : CfnEvent)
  | pipeline (e : PipelineJobEvent)
deriving DecidableEq

/-- The observable dispatch behaviour of one process lifetime: the mode
selected at startup, how many times the INVOKER environment variable was
read, and which flow handled each invocation. -/
structure ProcessRun where
  mode : HandlerMode
  invokerReads : Nat
  flows : List HandlerMode
deriving DecidableEq

/-- Embeds `main` (src/lambda/main.go lines 31-38) together with the
lambda runtime loop: at startup `os.Getenv "INVOKER"` is evaluated once
and the matching handler is registered; every subsequent invocation of
the process is served by that registered handler, and neither handler
reads INVOKER again (`cfnHandler` and `codePipelineHandler` contain no
environment reads). `invokerReads` counts evaluations of
`getEnv "INVOKER"` over the whole process lifetime. -/
def mainRun (p : ProcessEnv) (events : List InvocationEvent) : ProcessRun :=
  let invoker := p.getEnv "INVOKER"
  let mode : HandlerMode :=
    if invoker = "CODEPIPELINE" then .codePipeline else .customResource
  { mode := mode, invokerReads := 1, flows := events.map (fun _ => mode) }

/-- Sample process environment selecting the pipeline flow. -/
def pipelineProcessEnv : ProcessEnv where
  getEnv := fun k => if k = "INVOKER" then "CODEPIPELINE" else ""

/-- Sample invocation event for process-level theorems. -/
def sampleEvent : InvocationEvent :=
  .pipeline { id := "job-0", userParametersJson := "" }

/-- Counterexample to claim C8 as stated: the dispatch flag is not read
once per invocation. A process lifetime that serves two invocations
performs exactly one read of INVOKER — in `main`, before the handler
loop — not one read for each of the two invocations. -/
theorem invoker_read_per_invocation_counterexample :
    (mainRun pipelineProcessEnv [sampleEvent, sampleEvent]).invokerReads = 1 ∧
    [sampleEvent, sampleEvent].length = 2 ∧
    (mainRun pipelineProcessEnv [sampleEvent, sampleEvent]).invokerReads ≠
      [sampleEvent, sampleEvent].length := by
  refine ⟨rfl, rfl, ?_⟩
  decide

/-- Claim C8 as amended: the INVOKER environment variable is the sole
key selecting between the provisioning flow and the pipeline flow; it is
read exactly once, at process startup before any invocation, and the
selected mode is fixed for the process lifetime — every invocation is
served by the startup-selected flow. Two process environments agreeing
on INVOKER produce identical dispatch behaviour. -/
theorem invoker_flag_dispatch (p : ProcessEnv) (events : List InvocationEvent) :
    (mainRun p events).invokerReads = 1 ∧
    (mainRun p events).flows = List.replicate events.length (mainRun p events).mode ∧
    (∀ q : ProcessEnv, q.getEnv "INVOKER" = p.getEnv "INVOKER" →
      mainRun q events = mainRun p events) ∧
    (p.getEnv "INVOKER" = "CODEPIPELINE" → (mainRun p events).mode = .codePipeline) ∧
    (p.getEnv "INVOKER" ≠ "CODEPIPELINE" → (mainRun p events).mode = .customResource) := by
  refine ⟨rfl, ?_, ?_, ?_, ?_⟩
  · simp [mainRun, List.map_const']
  · intro q h
    simp [mainRun, h]
  · intro h
    simp [mainRun, h]
  · intro h
    simp [mainRun, h]

/-- Concrete instantiation of `invoker_flag_dispatch`: with INVOKER set
to CODEPIPELINE, a two-invocation lifetime reads the flag once, serves
both invocations with the pipeline flow, and any environment agreeing on
INVOKER dispatches identically. -/
theorem invoker_flag_dispatch_witness :
    (mainRun pipelineProcessEnv [sampleEvent, sampleEvent]).invokerReads = 1 ∧
    (mainRun pipelineProcessEnv [sampleEvent, sampleEvent]).flows =
      List.replicate 2 (mainRun pipelineProcessEnv [sampleEvent, sampleEvent]).mode ∧
    (mainRun pipelineProcessEnv [sampleEvent, sampleEvent]).mode = .codePipeline := by
  have h := invoker_flag_dispatch pipelineProcessEnv [sampleEvent, sampleEvent]
  exact ⟨h.1, h.2.1, h.2.2.2.1 (by decide)⟩

/-- Environment whose JSON decoder rejects every payload, modelling an
undecodable user-parameters string; the engine itself would succeed. -/
def badDecodeEnv : Env :=
  { store := kvStore, copyImage := fun _ _ _ _ => .ok (),
    decodeUserParameters := fun _ => none }

/-- Pipeline-job event carrying an undecodable parameters string. -/
def badDecodeEvent : PipelineJobEvent :=
  { id := "job-9", userParametersJson := "not json" }

/-- Counterexample to claim C9 as stated: a payload that fails to decode
is not rejected at the decode step. With a decoder that rejects the
payload, the handler still proceeds into the copy logic on the
zero-valued parameter structure and reports a job failure whose detail
is the image-reference parse error for the empty reference string — a
downstream failure, not a decode rejection — and returns no error. -/
theorem eager_validation_counterexample :
    badDecodeEnv.decodeUserParameters badDecodeEvent.userParametersJson = none ∧
    codePipelineHandler badDecodeEnv badDecodeEvent =
      runPipelineJob badDecodeEnv "job-9" {} ∧
    (codePipelineHandler badDecodeEnv badDecodeEvent).failureCalls =
      [("job-9", CopyErr.text (.UnsupportedScheme ""))] ∧
    (codePipelineHandler badDecodeEnv badDecodeEvent).returnError = none := by
  refine ⟨rfl, rfl, ?_, rfl⟩
  decide

/-- Claim C9 as amended: each handler decodes the inbound payload into
the typed `UserParameters` structure at the boundary and all downstream
logic operates on that structure only; however decode failures are
silently ignored rather than rejected — the handler behaves exactly as
if the payload were the zero-valued structure — and no eager
required-field validation occurs: the zero-valued structure fails only
later, at image-reference parsing, with the unsupported-scheme error for
the empty reference, in every environment. -/
theorem typed_boundary_decode (env : Env) (ev : PipelineJobEvent) (ce : CfnEvent) :
    (env.decodeUserParameters ev.userParametersJson = none →
      codePipelineHandler env ev = runPipelineJob env ev.id {}) ∧
    (ce.ResourceProperties = none →
      cfnHandler env ce = cfnHandler env { ce with ResourceProperties := some {} }) ∧
    handleImages env {} =
      (.error (.UnsupportedScheme ""), { secretReads := 0, engineCalls := 0 }) := by
  refine ⟨?_, ?_, ?_⟩
  · intro h
    simp [codePipelineHandler, h]
  · intro h
    simp [cfnHandler, h]
  · rfl

/-- Concrete instantiation of `typed_boundary_decode`: the rejecting
decoder makes the pipeline handler run the job body on the zero-valued
structure, an undecodable provisioning property map behaves as the
zero-valued structure, and the zero-valued structure fails at
image-reference parsing. -/
theorem typed_boundary_decode_witness :
    codePipelineHandler badDecodeEnv badDecodeEvent =
      runPipelineJob badDecodeEnv "job-9" {} ∧
    cfnHandler badDecodeEnv
      { RequestType := .Create, PhysicalResourceID := "pri-2",
        ResourceProperties := none } =
      cfnHandler badDecodeEnv
      { RequestType := .Create, PhysicalResourceID := "pri-2",
        ResourceProperties := some {} } ∧
    handleImages badDecodeEnv {} =
      (.error (.UnsupportedScheme ""), { secretReads := 0, engineCalls := 0 }) := by
  have h := typed_boundary_decode badDecodeEnv badDecodeEvent
    { RequestType := .Create, PhysicalResourceID := "pri-2",
      ResourceProperties := none }
  exact ⟨h.1 rfl, h.2.1 rfl, h.2.2⟩
